import Mathlib

/-!
Verification of the KINESYS trajectory-planning core against its
natural-language specification.

The development shallowly embeds:
  * the frontend workspace/physics helpers (`frontend/src/engine/physics.ts`),
  * the frontend arm controller command path
    (`frontend/src/engine/armController.ts`),
  * the frontend IK solver (`frontend/src/engine/ikSolver.ts`), with the
    transcendental numeric primitives (sin, cos, sqrt, atan2, acos) kept
    abstract as parameters so every control-flow path stays executable
    over ℚ,
  * the frontend command-mode pipeline state machine
    (`frontend/src/modes/commandMode.ts`), and
  * the backend safety validator, trajectory planner and action primitives,
    whose Python sources are not part of the source tree here; those are
    modelled from the specification text (each such definition carries a
    doc comment starting with `Modelled from the spec:`).

Machine reals are modelled as ℚ: every numeric operation the embedded code
performs (+, -, *, /, comparisons, min/max) is exact on the inputs used in
the theorems below, and the square root needed by the euclidean-distance
checks is handled by comparing squared quantities, with bridging lemmas
phrased via `Real.sqrt` where a claim speaks of euclidean distance.
-/

namespace Kinesys

/-- A 3-component vector (positions, from `THREE.Vector3` as used by the
embedded code). -/
structure Vec3 where
  x : ℚ
  y : ℚ
  z : ℚ
  deriving DecidableEq, Repr

/-- A trajectory waypoint: position, orientation, gripper state
(`Waypoint` in `commandMode.ts` / the shared schema). -/
structure Waypoint where
  x : ℚ
  y : ℚ
  z : ℚ
  roll : ℚ
  pitch : ℚ
  yaw : ℚ
  gripper_open : Bool
  deriving DecidableEq, Repr

/-- Position component of a waypoint. -/
def Waypoint.pos (w : Waypoint) : Vec3 := ⟨w.x, w.y, w.z⟩

/-- Squared euclidean distance between two 3-D points.  The embedded
checks compare squared distances against squared limits, which is exactly
equivalent to comparing `Real.sqrt` of the distance against the limit
(bridging lemmas below). -/
def distSq (p q : Vec3) : ℚ :=
  (p.x - q.x) ^ 2 + (p.y - q.y) ^ 2 + (p.z - q.z) ^ 2

theorem distSq_nonneg (p q : Vec3) : 0 ≤ distSq p q := by
  have hx : (0:ℚ) ≤ (p.x - q.x) ^ 2 := sq_nonneg _
  have hy : (0:ℚ) ≤ (p.y - q.y) ^ 2 := sq_nonneg _
  have hz : (0:ℚ) ≤ (p.z - q.z) ^ 2 := sq_nonneg _
  unfold distSq; linarith

/-- Bridging lemma: for a nonnegative squared distance `s`, a positive
duration `dt` and a nonnegative limit `v`, the spec's comparison
`sqrt s / dt > v` (velocity strictly exceeds the limit) is equivalent to
the squared comparison `s > (v * dt) ^ 2` that the executable embedding
performs. -/
theorem sqrt_div_lt_iff_sq (s dt v : ℚ) (hs : 0 ≤ s) (hdt : 0 < dt)
    (hv : 0 ≤ v) :
    (v : ℝ) < Real.sqrt (s : ℝ) / (dt : ℝ) ↔ (v * dt) ^ 2 < s := by
  have hdtR : (0:ℝ) < (dt : ℝ) := by exact_mod_cast hdt
  have hvR : (0:ℝ) ≤ (v : ℝ) := by exact_mod_cast hv
  have h1 : (v : ℝ) < Real.sqrt (s : ℝ) / (dt : ℝ) ↔
      (v : ℝ) * (dt : ℝ) < Real.sqrt (s : ℝ) := by
    rw [lt_div_iff₀ hdtR]
  have hvd : (0:ℝ) ≤ (v : ℝ) * (dt : ℝ) := by positivity
  have h2 : (v : ℝ) * (dt : ℝ) < Real.sqrt (s : ℝ) ↔
      ((v : ℝ) * (dt : ℝ)) ^ 2 < (s : ℝ) := by
    constructor
    · intro h
      have := Real.sq_sqrt (by exact_mod_cast hs : (0:ℝ) ≤ (s : ℝ))
      calc ((v : ℝ) * (dt : ℝ)) ^ 2
          < Real.sqrt (s : ℝ) ^ 2 := by
            apply sq_lt_sq' _ h
            have : (0:ℝ) ≤ Real.sqrt (s : ℝ) := Real.sqrt_nonneg _
            linarith
        _ = (s : ℝ) := this
    · intro h
      have h3 : (v : ℝ) * (dt : ℝ) < Real.sqrt (((v : ℝ) * (dt : ℝ)) ^ 2 + ((s : ℝ) - ((v : ℝ) * (dt : ℝ)) ^ 2)) := by
        have h4 : Real.sqrt (((v : ℝ) * (dt : ℝ)) ^ 2) ≤ Real.sqrt (s : ℝ) := by
          apply Real.sqrt_le_sqrt; linarith
        have h5 : Real.sqrt (((v : ℝ) * (dt : ℝ)) ^ 2) = (v : ℝ) * (dt : ℝ) := by
          rw [Real.sqrt_sq hvd]
        have h6 : Real.sqrt (((v : ℝ) * (dt : ℝ)) ^ 2) < Real.sqrt (s : ℝ) := by
          apply Real.sqrt_lt_sqrt (by positivity); exact h
        rw [h5] at h6
        calc (v : ℝ) * (dt : ℝ) < Real.sqrt (s : ℝ) := h6
          _ = Real.sqrt (((v : ℝ) * (dt : ℝ)) ^ 2 + ((s : ℝ) - ((v : ℝ) * (dt : ℝ)) ^ 2)) := by
              ring_nf
      have : ((v : ℝ) * (dt : ℝ)) ^ 2 + ((s : ℝ) - ((v : ℝ) * (dt : ℝ)) ^ 2) = (s : ℝ) := by ring
      rw [this] at h3
      exact h3
  rw [h1, h2]
  constructor
  · intro h
    have : ((v * dt : ℚ) : ℝ) ^ 2 < (s : ℝ) := by
      rw [Rat.cast_mul]; exact h
    exact_mod_cast this
  · intro h
    have : ((v * dt : ℚ) : ℝ) ^ 2 < (s : ℝ) := by exact_mod_cast h
    rw [Rat.cast_mul] at this
    exact this

-- ---------------------------------------------------------------------------
-- frontend/src/engine/physics.ts — workspace bounds
-- ---------------------------------------------------------------------------

/-- An inclusive `[lo, hi]` interval for one axis (`[number, number]` pairs
of `WORKSPACE_BOUNDS` in `physics.ts`). -/
structure AxisRange where
  lo : ℚ
  hi : ℚ
  deriving DecidableEq, Repr

/-- The per-axis workspace box (`WORKSPACE_BOUNDS` in `physics.ts`). -/
structure WorkspaceBox where
  x : AxisRange
  y : AxisRange
  z : AxisRange
  deriving DecidableEq, Repr

/-- `WORKSPACE_BOUNDS` from `physics.ts`:
x ∈ [-1.5, 1.5], y ∈ [0.0, 3.0], z ∈ [-1.5, 1.5]. -/
def WORKSPACE_BOUNDS : WorkspaceBox :=
  { x := ⟨-(3/2 : ℚ), (3/2 : ℚ)⟩
    y := ⟨(0 : ℚ), (3 : ℚ)⟩
    z := ⟨-(3/2 : ℚ), (3/2 : ℚ)⟩ }

/-- `isWithinWorkspace` from `physics.ts`: conjunction of the six inclusive
comparisons, in source order. -/
def isWithinWorkspace (pos : Vec3) : Bool :=
  decide (WORKSPACE_BOUNDS.x.lo ≤ pos.x) &&
  decide (pos.x ≤ WORKSPACE_BOUNDS.x.hi) &&
  decide (WORKSPACE_BOUNDS.y.lo ≤ pos.y) &&
  decide (pos.y ≤ WORKSPACE_BOUNDS.y.hi) &&
  decide (WORKSPACE_BOUNDS.z.lo ≤ pos.z) &&
  decide (pos.z ≤ WORKSPACE_BOUNDS.z.hi)

/-- Membership of a point in an inclusive per-axis box. -/
def inBox (b : WorkspaceBox) (pos : Vec3) : Prop :=
  b.x.lo ≤ pos.x ∧ pos.x ≤ b.x.hi ∧
  b.y.lo ≤ pos.y ∧ pos.y ≤ b.y.hi ∧
  b.z.lo ≤ pos.z ∧ pos.z ≤ b.z.hi

instance (b : WorkspaceBox) (pos : Vec3) : Decidable (inBox b pos) := by
  unfold inBox; infer_instance

theorem isWithinWorkspace_iff_inBox (pos : Vec3) :
    isWithinWorkspace pos = true ↔ inBox WORKSPACE_BOUNDS pos := by
  unfold isWithinWorkspace inBox
  simp [and_assoc]

-- ---------------------------------------------------------------------------
-- Indexed-list helpers used by the validator embedding
-- ---------------------------------------------------------------------------

/-- Pair every element of a list with its index, starting at `k`. -/
def withIdx (k : ℕ) : List α → List (ℕ × α)
  | [] => []
  | a :: t => (k, a) :: withIdx (k + 1) t

theorem mem_withIdx {α : Type} (l : List α) (k i : ℕ) (a : α) :
    (i, a) ∈ withIdx k l ↔ ∃ j, i = k + j ∧ l.get? j = some a := by
  induction l generalizing k with
  | nil => simp [withIdx]
  | cons b t ih =>
    simp only [withIdx, List.mem_cons, ih (k + 1)]
    constructor
    · rintro (h | ⟨j, rfl, hj⟩)
      · exact ⟨0, by simp_all⟩
      · exact ⟨j + 1, by omega, by simpa using hj⟩
    · rintro ⟨j, rfl, hj⟩
      cases j with
      | zero => left; simp_all
      | succ j => right; exact ⟨j, by omega, by simpa using hj⟩

/-- All adjacent pairs of a list, in order. -/
def consecutivePairs : List α → List (α × α)
  | a :: b :: t => (a, b) :: consecutivePairs (b :: t)
  | _ => []

theorem consecutivePairs_get? {α : Type} (l : List α) (i : ℕ) (p q : α) :
    (consecutivePairs l).get? i = some (p, q) ↔
      l.get? i = some p ∧ l.get? (i + 1) = some q := by
  induction l generalizing i with
  | nil => simp [consecutivePairs]
  | cons a t ih =>
    cases t with
    | nil => cases i <;> simp [consecutivePairs]
    | cons b t2 =>
      cases i with
      | zero => simp [consecutivePairs]
      | succ i => simpa [consecutivePairs] using ih i

theorem length_consecutivePairs {α : Type} (l : List α) :
    (consecutivePairs l).length = l.length - 1 := by
  induction l with
  | nil => simp [consecutivePairs]
  | cons a t ih =>
    cases t with
    | nil => simp [consecutivePairs]
    | cons b t2 => simp [consecutivePairs] at ih ⊢; omega

-- ---------------------------------------------------------------------------
-- Backend safety validator (backend/core/safety_validator.py).
-- The Python source is not part of the source tree; every definition in this
-- section is modelled from the specification text (§3, §4.3, §8).
-- ---------------------------------------------------------------------------

/-- Severity of a reported constraint violation (spec §3). -/
inductive Severity where
  | error
  | warning
  deriving DecidableEq, Repr

/-- Modelled from the spec: a Violation/Warning record — constraint name,
severity, message, waypoint index (spec §3). -/
structure Violation where
  constraint : String
  severity : Severity
  message : String
  waypoint_index : ℕ
  deriving DecidableEq, Repr

/-- Modelled from the spec: SafetyConfig (spec §3) — workspace bounds,
table height, collision margin, velocity/force/distance limits, and the
assumed per-step duration. -/
structure SafetyConfig where
  x_min : ℚ
  x_max : ℚ
  y_min : ℚ
  y_max : ℚ
  z_min : ℚ
  z_max : ℚ
  table_height : ℚ
  collision_margin : ℚ
  max_linear_velocity : ℚ
  max_angular_velocity : ℚ
  max_gripper_force : ℚ
  min_obstacle_clearance : ℚ
  max_waypoint_distance : ℚ
  assumed_dt : ℚ
  deriving DecidableEq, Repr

/-- The workspace box configured in a `SafetyConfig`. -/
def SafetyConfig.box (cfg : SafetyConfig) : WorkspaceBox :=
  ⟨⟨cfg.x_min, cfg.x_max⟩, ⟨cfg.y_min, cfg.y_max⟩, ⟨cfg.z_min, cfg.z_max⟩⟩

/-- Shape of a scene object (spec §3). -/
inductive Shape where
  | box
  | cylinder
  | sphere
  deriving DecidableEq, Repr

/-- Modelled from the spec: SceneObject (spec §3). -/
structure SceneObject where
  id : String
  shape : Shape
  color : String
  position : Vec3
  size : List ℚ
  mass : ℚ
  is_held : Bool
  deriving DecidableEq, Repr

/-- Modelled from the spec: SceneState (spec §3) — objects, end-effector,
gripper, held object, table height. -/
structure SceneState where
  objects : List SceneObject
  end_effector : Vec3
  gripper_open : Bool
  held_object_id : Option String
  table_height : ℚ
  deriving DecidableEq, Repr

/-- Modelled from the spec: the workspace-bounds check (§4.3) — every
waypoint's position must lie inside the configured box, endpoints
included; a waypoint outside it yields an error-severity violation
carrying the waypoint's index. -/
def check_workspace_bounds (cfg : SafetyConfig) (wps : List Waypoint) :
    List Violation :=
  (withIdx 0 wps).filterMap fun iw =>
    if inBox cfg.box iw.2.pos then none
    else some ⟨"workspace_bounds", Severity.error,
      "waypoint outside workspace bounds", iw.1⟩

/-- Modelled from the spec: the table-collision check (§4.3) —
`y ≥ table_height − collision_margin` passes; strictly below yields an
error-severity violation. -/
def check_table_collision (cfg : SafetyConfig) (wps : List Waypoint) :
    List Violation :=
  (withIdx 0 wps).filterMap fun iw =>
    if iw.2.y < cfg.table_height - cfg.collision_margin then
      some ⟨"table_collision", Severity.error,
        "waypoint collides with table", iw.1⟩
    else none

/-- Executable form of the per-pair linear-velocity test: the spec's
`euclidean distance / assumed_dt > max_linear_velocity` is evaluated as
`distSq > (max_linear_velocity · assumed_dt)²`, which `sqrt_div_lt_iff_sq`
proves equivalent for a positive `assumed_dt` and nonnegative limit. -/
def linearVelocityExceeded (cfg : SafetyConfig) (p q : Waypoint) : Bool :=
  decide ((cfg.max_linear_velocity * cfg.assumed_dt) ^ 2 < distSq p.pos q.pos)

/-- Modelled from the spec: the linear-velocity check (§4.3) — for each
adjacent pair, velocity strictly above `max_linear_velocity` yields an
error-severity violation (equality passes); the violation carries the
index of the arriving waypoint. -/
def check_linear_velocity (cfg : SafetyConfig) (wps : List Waypoint) :
    List Violation :=
  (withIdx 0 (consecutivePairs wps)).filterMap fun ipq =>
    if linearVelocityExceeded cfg ipq.2.1 ipq.2.2 then
      some ⟨"max_linear_velocity", Severity.error,
        "velocity between waypoints exceeds limit", ipq.1 + 1⟩
    else none

/-- Squared combined orientation delta between two waypoints. -/
def angSq (p q : Waypoint) : ℚ :=
  (p.roll - q.roll) ^ 2 + (p.pitch - q.pitch) ^ 2 + (p.yaw - q.yaw) ^ 2

/-- Modelled from the spec: the angular-velocity check (§4.3) — same
pattern as the linear one, on the combined orientation delta. -/
def check_angular_velocity (cfg : SafetyConfig) (wps : List Waypoint) :
    List Violation :=
  (withIdx 0 (consecutivePairs wps)).filterMap fun ipq =>
    if decide ((cfg.max_angular_velocity * cfg.assumed_dt) ^ 2 <
        angSq ipq.2.1 ipq.2.2) then
      some ⟨"max_angular_velocity", Severity.error,
        "angular velocity between waypoints exceeds limit", ipq.1 + 1⟩
    else none

/-- Modelled from the spec: the waypoint-distance check (§4.3) — a single
step longer than `max_waypoint_distance` yields an error-severity
violation (evaluated on squared distances). -/
def check_waypoint_distance (cfg : SafetyConfig) (wps : List Waypoint) :
    List Violation :=
  (withIdx 0 (consecutivePairs wps)).filterMap fun ipq =>
    if decide (cfg.max_waypoint_distance ^ 2 <
        distSq ipq.2.1.pos ipq.2.2.pos) then
      some ⟨"max_waypoint_distance", Severity.error,
        "distance between waypoints exceeds limit", ipq.1 + 1⟩
    else none

/-- Modelled from the spec: the obstacle-clearance check (§4.3) — a
waypoint closer than `min_obstacle_clearance` to a non-held object yields
a warning-severity record only (the object-surface offset is simplified
to the distance to the object's centre; no claim depends on the offset). -/
def check_obstacle_clearance (cfg : SafetyConfig) (scene : SceneState)
    (wps : List Waypoint) : List Violation :=
  (withIdx 0 wps).filterMap fun iw =>
    if scene.objects.any fun obj =>
        !obj.is_held &&
        decide (distSq iw.2.pos obj.position <
          cfg.min_obstacle_clearance ^ 2) then
      some ⟨"obstacle_clearance", Severity.warning,
        "waypoint too close to obstacle", iw.1⟩
    else none

/-- Modelled from the spec: SafetyValidationResult (§4.3). -/
structure SafetyValidationResult where
  is_safe : Bool
  violations : List Violation
  warnings : List Violation
  summary : String
  deriving DecidableEq, Repr

/-- Modelled from the spec: `validate_trajectory` (§4.3) — a pure function
of (waypoints, scene, config); all checks are evaluated independently and
their outputs concatenated, errors decide `is_safe`, clearance problems
are warnings only. -/
def validate_trajectory (wps : List Waypoint) (scene : SceneState)
    (cfg : SafetyConfig) : SafetyValidationResult :=
  let violations :=
    check_workspace_bounds cfg wps ++
    check_table_collision cfg wps ++
    check_linear_velocity cfg wps ++
    check_angular_velocity cfg wps ++
    check_waypoint_distance cfg wps
  let warnings := check_obstacle_clearance cfg scene wps
  { is_safe := violations.isEmpty
    violations := violations
    warnings := warnings
    summary :=
      if violations.isEmpty then "Trajectory is safe"
      else "Safety violations detected" }

/-- Modelled from the spec: the HITL confirmation predicate computed by the
VALIDATING step (§4.4) — confirmation is required when the flattened
waypoint count exceeds 5 or some adjacent-pair velocity strictly exceeds
0.8 × max_linear_velocity (squared-distance form of the same test). -/
def requires_confirmation (cfg : SafetyConfig) (wps : List Waypoint) : Bool :=
  decide (5 < wps.length) ||
  (consecutivePairs wps).any fun pq =>
    decide ((4 / 5 * cfg.max_linear_velocity * cfg.assumed_dt) ^ 2 <
      distSq pq.1.pos pq.2.pos)

-- ---------------------------------------------------------------------------
-- Membership characterizations of the validator checks
-- ---------------------------------------------------------------------------

theorem mem_check_workspace_bounds (cfg : SafetyConfig) (wps : List Waypoint)
    (v : Violation) :
    v ∈ check_workspace_bounds cfg wps ↔
      ∃ j w, wps.get? j = some w ∧ ¬ inBox cfg.box w.pos ∧
        v = ⟨"workspace_bounds", Severity.error,
          "waypoint outside workspace bounds", j⟩ := by
  unfold check_workspace_bounds
  simp only [List.mem_filterMap]
  constructor
  · rintro ⟨⟨j, w⟩, hmem, hf⟩
    rw [mem_withIdx] at hmem
    obtain ⟨j2, hj, hw⟩ := hmem
    have hj2 : j2 = j := by omega
    rw [hj2] at hw
    by_cases hb : inBox cfg.box w.pos
    · simp [hb] at hf
    · simp only [hb, if_false, Option.some.injEq] at hf
      exact ⟨j, w, hw, hb, hf.symm⟩
  · rintro ⟨j, w, hw, hb, rfl⟩
    exact ⟨(j, w), (mem_withIdx _ _ _ _).mpr ⟨j, by omega, hw⟩, by simp [hb]⟩

theorem mem_check_linear_velocity (cfg : SafetyConfig) (wps : List Waypoint)
    (v : Violation) :
    v ∈ check_linear_velocity cfg wps ↔
      ∃ j p q, wps.get? j = some p ∧ wps.get? (j + 1) = some q ∧
        linearVelocityExceeded cfg p q = true ∧
        v = ⟨"max_linear_velocity", Severity.error,
          "velocity between waypoints exceeds limit", j + 1⟩ := by
  unfold check_linear_velocity
  simp only [List.mem_filterMap]
  constructor
  · rintro ⟨⟨j, p, q⟩, hmem, hf⟩
    rw [mem_withIdx] at hmem
    obtain ⟨j2, hj, hpq⟩ := hmem
    have hj2 : j2 = j := by omega
    rw [hj2] at hpq
    rw [consecutivePairs_get?] at hpq
    by_cases hex : linearVelocityExceeded cfg p q
    · simp only [hex, if_true, Option.some.injEq] at hf
      exact ⟨j, p, q, hpq.1, hpq.2, hex, hf.symm⟩
    · simp [hex] at hf
  · rintro ⟨j, p, q, hp, hq, hex, rfl⟩
    exact ⟨(j, (p, q)),
      (mem_withIdx _ _ _ _).mpr
        ⟨j, by omega, (consecutivePairs_get? _ _ _ _).mpr ⟨hp, hq⟩⟩,
      by simp [hex]⟩

-- ---------------------------------------------------------------------------
-- Claim theorems about the safety validator
-- ---------------------------------------------------------------------------

/-- **C4** — the workspace-bounds check is inclusive on the boundary: a
violation at index `i` is reported exactly when waypoint `i` lies outside
the inclusive configured box, every reported workspace violation has
error severity, and the frontend `isWithinWorkspace` passes a position
exactly when every coordinate lies within its inclusive `[min, max]`
interval. -/
theorem workspace_bounds_inclusive (cfg : SafetyConfig) (wps : List Waypoint)
    (i : ℕ) (w : Waypoint) (hw : wps.get? i = some w) :
    (∀ v ∈ check_workspace_bounds cfg wps, v.severity = Severity.error) ∧
    ((∃ v ∈ check_workspace_bounds cfg wps, v.waypoint_index = i) ↔
      ¬ inBox cfg.box w.pos) ∧
    (∀ pos : Vec3, isWithinWorkspace pos = true ↔ inBox WORKSPACE_BOUNDS pos) := by
  refine ⟨?_, ⟨?_, ?_⟩, isWithinWorkspace_iff_inBox⟩
  · intro v hv
    rw [mem_check_workspace_bounds] at hv
    obtain ⟨j, w2, _, _, rfl⟩ := hv
    rfl
  · rintro ⟨v, hv, hidx⟩
    rw [mem_check_workspace_bounds] at hv
    obtain ⟨j, w2, hw2, hb, rfl⟩ := hv
    have hj : j = i := hidx
    subst hj
    rw [hw] at hw2
    cases hw2
    exact hb
  · intro hb
    exact ⟨⟨"workspace_bounds", Severity.error,
        "waypoint outside workspace bounds", i⟩,
      (mem_check_workspace_bounds _ _ _).mpr ⟨i, w, hw, hb, rfl⟩, rfl⟩

/-- A waypoint at position `(x, y, z)` with neutral orientation. -/
def wp (x y z : ℚ) (g : Bool) : Waypoint := ⟨x, y, z, 0, 0, 0, g⟩

/-- The global safety limits used by the concrete spec examples:
workspace mirroring `WORKSPACE_BOUNDS`, table height 0.5 m, collision
margin 0.05 m, max linear velocity 2.5 m/s, assumed per-step duration
2.0 s, max waypoint distance 3.0 m. -/
def limitsCfg : SafetyConfig :=
  ⟨-(3/2), 3/2, 0, 3, -(3/2), 3/2, 1/2, 1/20, 5/2, 3, 10, 1/50, 3, 2⟩

theorem workspace_bounds_inclusive_witness :
    ([wp (3/2) 1 0 true] : List Waypoint).get? 0 = some (wp (3/2) 1 0 true) ∧
    ((∀ v ∈ check_workspace_bounds limitsCfg [wp (3/2) 1 0 true],
        v.severity = Severity.error) ∧
     ((∃ v ∈ check_workspace_bounds limitsCfg [wp (3/2) 1 0 true],
        v.waypoint_index = 0) ↔
        ¬ inBox limitsCfg.box (wp (3/2) 1 0 true).pos) ∧
     (∀ pos : Vec3, isWithinWorkspace pos = true ↔
        inBox WORKSPACE_BOUNDS pos)) :=
  ⟨rfl, workspace_bounds_inclusive limitsCfg _ 0 _ rfl⟩

/-- **C7** — the linear-velocity check flags an adjacent pair exactly when
the euclidean distance divided by `assumed_dt` strictly exceeds
`max_linear_velocity` (equality passes), and every reported velocity
violation has error severity. -/
theorem linear_velocity_strict_boundary (cfg : SafetyConfig)
    (wps : List Waypoint) (i : ℕ) (p q : Waypoint)
    (hdt : 0 < cfg.assumed_dt) (hv : 0 ≤ cfg.max_linear_velocity)
    (hp : wps.get? i = some p) (hq : wps.get? (i + 1) = some q) :
    ((∃ v ∈ check_linear_velocity cfg wps, v.waypoint_index = i + 1) ↔
      (cfg.max_linear_velocity : ℝ) <
        Real.sqrt ((distSq p.pos q.pos : ℚ) : ℝ) / (cfg.assumed_dt : ℝ)) ∧
    (∀ v ∈ check_linear_velocity cfg wps, v.severity = Severity.error) := by
  constructor
  · rw [sqrt_div_lt_iff_sq _ _ _ (distSq_nonneg _ _) hdt hv]
    constructor
    · rintro ⟨v, hv2, hidx⟩
      rw [mem_check_linear_velocity] at hv2
      obtain ⟨j, p2, q2, hp2, hq2, hex, rfl⟩ := hv2
      have hj1 : j + 1 = i + 1 := hidx
      have hj : j = i := by omega
      subst hj
      rw [hp] at hp2
      rw [hq] at hq2
      cases hp2
      cases hq2
      exact of_decide_eq_true hex
    · intro hlt
      exact ⟨⟨"max_linear_velocity", Severity.error,
          "velocity between waypoints exceeds limit", i + 1⟩,
        (mem_check_linear_velocity _ _ _).mpr
          ⟨i, p, q, hp, hq, decide_eq_true hlt, rfl⟩, rfl⟩
  · intro v hv2
    rw [mem_check_linear_velocity] at hv2
    obtain ⟨_, _, _, _, _, _, rfl⟩ := hv2
    rfl

theorem linear_velocity_strict_boundary_witness :
    check_linear_velocity limitsCfg [wp 0 1 0 true, wp 5 1 0 true] = [] ∧
    (check_linear_velocity limitsCfg
      [wp 0 1 0 true, wp (51/10) 1 0 true]).length = 1 ∧
    (0 : ℚ) < limitsCfg.assumed_dt ∧ (0 : ℚ) ≤ limitsCfg.max_linear_velocity ∧
    (((∃ v ∈ check_linear_velocity limitsCfg
          [wp 0 1 0 true, wp (51/10) 1 0 true], v.waypoint_index = 0 + 1) ↔
        (limitsCfg.max_linear_velocity : ℝ) <
          Real.sqrt ((distSq (wp 0 1 0 true).pos
            ((wp (51/10) 1 0 true)).pos : ℚ) : ℝ) /
            (limitsCfg.assumed_dt : ℝ)) ∧
     (∀ v ∈ check_linear_velocity limitsCfg
        [wp 0 1 0 true, wp (51/10) 1 0 true],
        v.severity = Severity.error)) :=
  ⟨by norm_num [check_linear_velocity, withIdx, consecutivePairs,
      linearVelocityExceeded, distSq, wp, Waypoint.pos, limitsCfg],
   by norm_num [check_linear_velocity, withIdx, consecutivePairs,
      linearVelocityExceeded, distSq, wp, Waypoint.pos, limitsCfg,
      List.filterMap_cons],
   by norm_num [limitsCfg], by norm_num [limitsCfg],
   linear_velocity_strict_boundary limitsCfg _ 0 _ _
     (by norm_num [limitsCfg]) (by norm_num [limitsCfg]) rfl rfl⟩

/-- **C2** — for a validated plan, confirmation is required exactly when
the flattened waypoint count strictly exceeds 5 or some adjacent pair's
velocity (euclidean distance over `assumed_dt`) strictly exceeds
0.8 × `max_linear_velocity`. -/
theorem hitl_confirmation_iff (cfg : SafetyConfig) (wps : List Waypoint)
    (hdt : 0 < cfg.assumed_dt) (hv : 0 ≤ cfg.max_linear_velocity) :
    requires_confirmation cfg wps = true ↔
      (5 < wps.length ∨ ∃ i p q, wps.get? i = some p ∧
        wps.get? (i + 1) = some q ∧
        ((4 / 5 * cfg.max_linear_velocity : ℚ) : ℝ) <
          Real.sqrt ((distSq p.pos q.pos : ℚ) : ℝ) / (cfg.assumed_dt : ℝ)) := by
  have hv8 : (0 : ℚ) ≤ 4 / 5 * cfg.max_linear_velocity := by
    have : (0 : ℚ) ≤ 4 / 5 := by norm_num
    exact mul_nonneg this hv
  unfold requires_confirmation
  rw [Bool.or_eq_true, decide_eq_true_eq, List.any_eq_true]
  apply or_congr Iff.rfl
  constructor
  · rintro ⟨⟨p, q⟩, hmem, hdec⟩
    rw [List.mem_iff_get?] at hmem
    obtain ⟨i, hi⟩ := hmem
    rw [consecutivePairs_get?] at hi
    refine ⟨i, p, q, hi.1, hi.2, ?_⟩
    rw [sqrt_div_lt_iff_sq _ _ _ (distSq_nonneg _ _) hdt hv8]
    exact of_decide_eq_true hdec
  · rintro ⟨i, p, q, hp, hq, hlt⟩
    refine ⟨(p, q), ?_, ?_⟩
    · rw [List.mem_iff_get?]
      exact ⟨i, (consecutivePairs_get? _ _ _ _).mpr ⟨hp, hq⟩⟩
    · exact decide_eq_true
        ((sqrt_div_lt_iff_sq _ _ _ (distSq_nonneg _ _) hdt hv8).mp hlt)

/-- Six stationary waypoints (count trigger of the HITL gate). -/
def sixWps : List Waypoint :=
  [wp 0 1 0 true, wp 0 1 0 true, wp 0 1 0 true,
   wp 0 1 0 true, wp 0 1 0 true, wp 0 1 0 true]

/-- Five waypoints, every step 4.0 m, i.e. 2.0 m/s at `assumed_dt` = 2 s. -/
def fiveSlowWps : List Waypoint :=
  [wp 0 1 0 true, wp 4 1 0 true, wp 8 1 0 true, wp 12 1 0 true, wp 16 1 0 true]

/-- Five waypoints with one 4.2 m step, i.e. 2.1 m/s at `assumed_dt` = 2 s. -/
def fiveFastWps : List Waypoint :=
  [wp 0 1 0 true, wp (21/5) 1 0 true, wp (21/5) 1 0 true,
   wp (21/5) 1 0 true, wp (21/5) 1 0 true]

theorem hitl_confirmation_iff_witness :
    requires_confirmation limitsCfg sixWps = true ∧
    requires_confirmation limitsCfg fiveSlowWps = false ∧
    requires_confirmation limitsCfg fiveFastWps = true ∧
    (0 : ℚ) < limitsCfg.assumed_dt ∧ (0 : ℚ) ≤ limitsCfg.max_linear_velocity ∧
    (requires_confirmation limitsCfg sixWps = true ↔
      (5 < sixWps.length ∨ ∃ i p q, sixWps.get? i = some p ∧
        sixWps.get? (i + 1) = some q ∧
        ((4 / 5 * limitsCfg.max_linear_velocity : ℚ) : ℝ) <
          Real.sqrt ((distSq p.pos q.pos : ℚ) : ℝ) /
            (limitsCfg.assumed_dt : ℝ))) :=
  ⟨by norm_num [requires_confirmation, sixWps, consecutivePairs, distSq,
      wp, Waypoint.pos, limitsCfg],
   by norm_num [requires_confirmation, fiveSlowWps, consecutivePairs, distSq,
      wp, Waypoint.pos, limitsCfg],
   by norm_num [requires_confirmation, fiveFastWps, consecutivePairs, distSq,
      wp, Waypoint.pos, limitsCfg],
   by norm_num [limitsCfg], by norm_num [limitsCfg],
   hitl_confirmation_iff limitsCfg sixWps
     (by norm_num [limitsCfg]) (by norm_num [limitsCfg])⟩

/-- A sequence of calls into the safety validator, each with its own
argument triple; used to state that the validator carries no state from
one call to the next. -/
def validationCallResults
    (calls : List (List Waypoint × SceneState × SafetyConfig)) :
    List SafetyValidationResult :=
  calls.map fun c => validate_trajectory c.1 c.2.1 c.2.2

/-- **C8** — `validate_trajectory` is deterministic and stateless: in any
call sequence containing the same triple (waypoints, scene, config) twice,
both occurrences return the very same `SafetyValidationResult` (hence the
same `is_safe`, `violations`, `warnings` and `summary`), whatever calls
are made before or between them. -/
theorem validate_trajectory_stateless (w : List Waypoint) (s : SceneState)
    (c : SafetyConfig)
    (pre mid : List (List Waypoint × SceneState × SafetyConfig)) :
    validationCallResults (pre ++ (w, s, c) :: (mid ++ [(w, s, c)])) =
      validationCallResults pre ++ validate_trajectory w s c ::
        (validationCallResults mid ++ [validate_trajectory w s c]) := by
  simp [validationCallResults]

-- ---------------------------------------------------------------------------
-- Backend action primitives and trajectory planner
-- (backend/core/action_primitives.py and trajectory_planner.py).
-- The Python sources are not part of the source tree; every definition in
-- this section is modelled from the specification text (§4.1, §4.2, §7).
-- Only the primitives the claims exercise (GRASP, RELEASE, STACK, WAIT)
-- are modelled; any other action id fails with UnknownPrimitiveError,
-- which is the registry behavior the spec gives unknown ids.
-- ---------------------------------------------------------------------------

/-- Modelled from the spec: the planner-level error taxonomy (§7) —
ParameterError, UnknownTargetError, UnknownPrimitiveError,
PreconditionError. -/
inductive PlanError where
  | parameterMissing (param : String)
  | unknownTarget (id : String)
  | unknownPrimitive (id : String)
  | precondition (msg : String)
  deriving DecidableEq, Repr

/-- Modelled from the spec: ActionInvocation (§3) — an action id plus a
string-keyed parameter map (the claims only exercise string-valued
parameters). -/
structure ActionInvocation where
  action : String
  params : List (String × String)
  deriving DecidableEq, Repr

/-- Look an object up by id in the scene. -/
def SceneState.findObject (s : SceneState) (id : String) : Option SceneObject :=
  s.objects.find? fun o => o.id == id

/-- Look a parameter up by key. -/
def getParam (params : List (String × String)) (key : String) : Option String :=
  (params.find? fun kv => kv.1 == key).map fun kv => kv.2

/-- Vertical extent of an object: entry 1 of its shape-dependent size
list (height for boxes and cylinders), 0 when absent. -/
def sizeY (obj : SceneObject) : ℚ := obj.size.getD 1 0

/-- A waypoint at position `p` with neutral orientation. -/
def wpAt (p : Vec3) (g : Bool) : Waypoint := ⟨p.x, p.y, p.z, 0, 0, 0, g⟩

/-- Mark the object with the given id as held / not held. -/
def setObjectHeld (objs : List SceneObject) (id : String) (h : Bool) :
    List SceneObject :=
  objs.map fun o => if o.id == id then { o with is_held := h } else o

/-- Move the object with the given id to a new position. -/
def setObjectPosition (objs : List SceneObject) (id : String) (p : Vec3) :
    List SceneObject :=
  objs.map fun o => if o.id == id then { o with position := p } else o

/-- Modelled from the spec: resolve one action against the current scene
snapshot — resolve its primitive (unknown id → UnknownPrimitiveError),
check its preconditions (§4.1, §7), generate its waypoints, and fold its
effect into the scene (§4.2: GRASP sets the held object and closes the
gripper; RELEASE and STACK clear it and open the gripper; STACK relocates
the object to its release waypoint; every action moves the end effector
to its last waypoint).  STACK uses
`stack_y = target.y + target.size.y/2 + 0.05` and `safe_y = stack_y + 0.25`
(§4.1), producing the approach waypoint at `safe_y`, the release waypoint
at `stack_y` where the gripper opens, and the retreat waypoint back at
`safe_y`. -/
def processAction (scene : SceneState) (a : ActionInvocation) :
    Except PlanError (List Waypoint × String × SceneState) :=
  if a.action == "GRASP" then
    match getParam a.params "target" with
    | none => .error (PlanError.parameterMissing "target")
    | some tid =>
      match scene.held_object_id with
      | some _ => .error (PlanError.precondition "already holding an object")
      | none =>
        match scene.findObject tid with
        | none => .error (PlanError.unknownTarget tid)
        | some obj =>
          let wps := [wpAt obj.position true, wpAt obj.position false]
          .ok (wps, "Grasping the target object",
            { scene with
              objects := setObjectHeld scene.objects tid true
              held_object_id := some tid
              gripper_open := false
              end_effector := obj.position })
  else if a.action == "RELEASE" then
    let wps := [wpAt scene.end_effector true]
    .ok (wps, "Opening the gripper",
      { scene with
        objects := match scene.held_object_id with
          | some hid => setObjectHeld scene.objects hid false
          | none => scene.objects
        held_object_id := none
        gripper_open := true })
  else if a.action == "STACK" then
    match getParam a.params "target" with
    | none => .error (PlanError.parameterMissing "target")
    | some tid =>
      match scene.held_object_id with
      | none => .error (PlanError.precondition "not holding an object")
      | some hid =>
        match scene.findObject tid with
        | none => .error (PlanError.unknownTarget tid)
        | some target =>
          let stack_y := target.position.y + sizeY target / 2 + 1/20
          let safe_y := stack_y + 1/4
          let releasePos : Vec3 := ⟨target.position.x, stack_y, target.position.z⟩
          let wps := [wpAt ⟨target.position.x, safe_y, target.position.z⟩ false,
                      wpAt releasePos true,
                      wpAt ⟨target.position.x, safe_y, target.position.z⟩ true]
          .ok (wps, "Stacking the held object on the target",
            { scene with
              objects := setObjectPosition
                (setObjectHeld scene.objects hid false) hid releasePos
              held_object_id := none
              gripper_open := true
              end_effector := ⟨target.position.x, safe_y, target.position.z⟩ })
  else if a.action == "WAIT" then
    .ok ([wpAt scene.end_effector scene.gripper_open], "Waiting", scene)
  else
    .error (PlanError.unknownPrimitive a.action)

/-- Modelled from the spec: ActionStep (§3) — invocation, generated
waypoints, narration. -/
structure ActionStep where
  invocation : ActionInvocation
  waypoints : List Waypoint
  narration : String
  deriving DecidableEq, Repr

/-- Modelled from the spec: TrajectoryPlan (§3) — ordered steps, the
flattened waypoint list (exactly the concatenation of step waypoints in
order), overall safety result, narration sequence, validity flag, and the
optional error with its offending step index. -/
structure TrajectoryPlan where
  steps : List ActionStep
  waypoints : List Waypoint
  narration : List String
  safety : SafetyValidationResult
  is_valid : Bool
  error_step : Option (ℕ × PlanError)
  deriving DecidableEq, Repr

/-- The sequential core of the planner: process actions in order against
the evolving scene snapshot; stop at the first failure, recording its
step index, and never touch the actions after it. -/
def planGo (scene : SceneState) (idx : ℕ) :
    List ActionInvocation → List ActionStep × Option (ℕ × PlanError) × SceneState
  | [] => ([], none, scene)
  | a :: rest =>
    match processAction scene a with
    | .error e => ([], some (idx, e), scene)
    | .ok (wps, narr, scene2) =>
      let r := planGo scene2 (idx + 1) rest
      (⟨a, wps, narr⟩ :: r.1, r.2)

/-- Modelled from the spec: `plan_trajectory` (§4.2) — fold the actions in
order over the evolving scene; fail fast on the first invalid step; on
full success run the Safety Validator once over the flattened sequence.
The plan is valid when no step failed and the flattened sequence is
safe. -/
def plan_trajectory (actions : List ActionInvocation) (scene : SceneState)
    (cfg : SafetyConfig) : TrajectoryPlan :=
  let r := planGo scene 0 actions
  let flat := (r.1.map fun s => s.waypoints).flatten
  let safety := validate_trajectory flat scene cfg
  { steps := r.1
    waypoints := flat
    narration := r.1.map fun s => s.narration
    safety := safety
    is_valid := r.2.1.isNone && safety.is_safe
    error_step := r.2.1 }

/-- Processing `pre ++ a :: post` when every action of `pre` succeeds and
`a` fails: the prefix contributes its steps, the failure is recorded at
index `k + pre.length`, and `post` is never reached. -/
theorem planGo_append_first_failure (pre : List ActionInvocation) :
    ∀ (k : ℕ) (scene scene2 : SceneState) (steps : List ActionStep)
      (a : ActionInvocation) (post : List ActionInvocation) (e : PlanError),
      planGo scene k pre = (steps, none, scene2) →
      processAction scene2 a = .error e →
      planGo scene k (pre ++ a :: post) =
        (steps, some (k + pre.length, e), scene2) := by
  induction pre with
  | nil =>
    intro k scene scene2 steps a post e hpre ha
    simp only [planGo, Prod.mk.injEq] at hpre
    obtain ⟨hsteps, _, hscene⟩ := hpre
    subst hsteps
    subst hscene
    simp [planGo, ha]
  | cons b pre ih =>
    intro k scene scene2 steps a post e hpre ha
    simp only [planGo] at hpre
    cases hb : processAction scene b with
    | error eb => rw [hb] at hpre; simp at hpre
    | ok r =>
      obtain ⟨wps, narr, sceneb⟩ := r
      rw [hb] at hpre
      simp only at hpre
      cases hrec : planGo sceneb (k + 1) pre with
      | mk steps2 r2 =>
        obtain ⟨err2, scene3⟩ := r2
        rw [hrec] at hpre
        simp only [Prod.mk.injEq] at hpre
        obtain ⟨hsteps, herr, hscene⟩ := hpre
        subst hsteps
        subst hscene
        subst herr
        have h2 := ih (k + 1) sceneb scene3 steps2 a post e hrec ha
        show planGo scene k ((b :: pre) ++ a :: post) = _
        simp only [List.cons_append, planGo, hb, List.append_eq]
        rw [h2]
        simp only [Prod.mk.injEq, List.length_cons, Option.some.injEq,
          and_true, true_and]
        omega

/-- **C1** — `plan_trajectory` is fail-fast: whenever every action before
`a` succeeds and `a` itself fails (primitive resolution, waypoint
generation or per-step validation), the returned plan is invalid, carries
the failing step's error at the failing step's index, and its flattened
waypoint list is exactly the concatenation of the waypoints of the
successful prefix — the actions after `a` contribute nothing, whatever
they are. -/
theorem plan_trajectory_fail_fast (cfg : SafetyConfig)
    (scene scene2 : SceneState) (pre post : List ActionInvocation)
    (a : ActionInvocation) (e : PlanError) (steps : List ActionStep)
    (hpre : planGo scene 0 pre = (steps, none, scene2))
    (ha : processAction scene2 a = .error e) :
    (plan_trajectory (pre ++ a :: post) scene cfg).is_valid = false ∧
    (plan_trajectory (pre ++ a :: post) scene cfg).error_step =
      some (pre.length, e) ∧
    (plan_trajectory (pre ++ a :: post) scene cfg).waypoints =
      (steps.map fun s => s.waypoints).flatten := by
  have h := planGo_append_first_failure pre 0 scene scene2 steps a post e
    hpre ha
  unfold plan_trajectory
  rw [h]
  simp

/-- The red cube of the default scene (`DEFAULT_SCENE_OBJECTS`). -/
def redCube : SceneObject :=
  ⟨"red_cube", Shape.box, "red", ⟨4/5, 13/20, 3/10⟩, [1/5, 1/5, 1/5], 1/2, false⟩

/-- The yellow box of the default scene (`DEFAULT_SCENE_OBJECTS`). -/
def yellowBox : SceneObject :=
  ⟨"yellow_box", Shape.box, "yellow", ⟨-(3/5), 5/8, -(3/10)⟩,
   [1/4, 3/20, 9/50], 2/5, false⟩

/-- A two-object scene with a free gripper, used by the concrete planner
examples. -/
def demoScene : SceneState :=
  { objects := [redCube, yellowBox]
    end_effector := ⟨0, 1, 0⟩
    gripper_open := true
    held_object_id := none
    table_height := 1/2 }

/-- GRASP the red cube. -/
def graspRed : ActionInvocation := ⟨"GRASP", [("target", "red_cube")]⟩

/-- STACK onto an object id absent from the scene. -/
def stackMissing : ActionInvocation :=
  ⟨"STACK", [("target", "missing_object")]⟩

/-- A WAIT action, valid in any scene. -/
def waitAction : ActionInvocation := ⟨"WAIT", []⟩

/-- The scene after grasping the red cube in `demoScene`. -/
def graspedScene : SceneState :=
  { objects := [{ redCube with is_held := true }, yellowBox]
    end_effector := redCube.position
    gripper_open := false
    held_object_id := some "red_cube"
    table_height := 1/2 }

/-- The single successful step of the `graspRed` prefix. -/
def graspSteps : List ActionStep :=
  [⟨graspRed, [wpAt redCube.position true, wpAt redCube.position false],
    "Grasping the target object"⟩]

theorem plan_trajectory_fail_fast_witness :
    planGo demoScene 0 [graspRed] = (graspSteps, none, graspedScene) ∧
    processAction graspedScene stackMissing =
      .error (PlanError.unknownTarget "missing_object") ∧
    ((plan_trajectory ([graspRed] ++ stackMissing :: [waitAction])
        demoScene limitsCfg).is_valid = false ∧
     (plan_trajectory ([graspRed] ++ stackMissing :: [waitAction])
        demoScene limitsCfg).error_step =
       some (([graspRed] : List ActionInvocation).length,
         PlanError.unknownTarget "missing_object") ∧
     (plan_trajectory ([graspRed] ++ stackMissing :: [waitAction])
        demoScene limitsCfg).waypoints =
       (graspSteps.map fun s => s.waypoints).flatten) :=
  ⟨rfl, rfl,
   plan_trajectory_fail_fast limitsCfg demoScene graspedScene [graspRed]
     [waitAction] stackMissing (PlanError.unknownTarget "missing_object")
     graspSteps rfl rfl⟩

/-- **C6** — for a STACK action on a held object whose target `t` is in
the scene, the generated trajectory is approach → release → retreat: the
release waypoint (where the gripper opens) is at height
`t.position.y + t.size.y/2 + 0.05`, and the waypoints immediately before
and after it are 0.25 above it. -/
theorem stack_release_height (scene : SceneState) (tid hid : String)
    (t : SceneObject)
    (hheld : scene.held_object_id = some hid)
    (hfind : scene.findObject tid = some t) :
    ∃ before rel after narr scene2,
      processAction scene ⟨"STACK", [("target", tid)]⟩ =
        .ok ([before, rel, after], narr, scene2) ∧
      rel.gripper_open = true ∧
      rel.y = t.position.y + sizeY t / 2 + 1/20 ∧
      before.y = rel.y + 1/4 ∧
      after.y = rel.y + 1/4 := by
  refine ⟨wpAt ⟨t.position.x, t.position.y + sizeY t / 2 + 1/20 + 1/4,
      t.position.z⟩ false,
    wpAt ⟨t.position.x, t.position.y + sizeY t / 2 + 1/20, t.position.z⟩ true,
    wpAt ⟨t.position.x, t.position.y + sizeY t / 2 + 1/20 + 1/4,
      t.position.z⟩ true,
    "Stacking the held object on the target",
    { scene with
      objects := setObjectPosition (setObjectHeld scene.objects hid false)
        hid ⟨t.position.x, t.position.y + sizeY t / 2 + 1/20, t.position.z⟩
      held_object_id := none
      gripper_open := true
      end_effector := ⟨t.position.x, t.position.y + sizeY t / 2 + 1/20 + 1/4,
        t.position.z⟩ },
    ?_, rfl, rfl, rfl, rfl⟩
  simp [processAction, getParam, hheld, hfind, wpAt]

/-- The stacking target of the spec's concrete STACK example: a box at
y = 0.6 with size.y = 0.2. -/
def stackTarget : SceneObject :=
  ⟨"target_box", Shape.box, "yellow", ⟨0, 3/5, 0⟩, [1/5, 1/5, 1/5], 2/5, false⟩

/-- A scene holding a cube above the stacking target. -/
def stackScene : SceneState :=
  { objects := [stackTarget,
      ⟨"held_cube", Shape.box, "red", ⟨0, 1, 0⟩, [1/5, 1/5, 1/5], 1/2, true⟩]
    end_effector := ⟨0, 1, 0⟩
    gripper_open := false
    held_object_id := some "held_cube"
    table_height := 1/2 }

theorem stack_release_height_witness :
    stackScene.held_object_id = some "held_cube" ∧
    stackScene.findObject "target_box" = some stackTarget ∧
    stackTarget.position.y + sizeY stackTarget / 2 + 1/20 = 3/4 ∧
    (stackTarget.position.y + sizeY stackTarget / 2 + 1/20) + 1/4 = 1 ∧
    (∃ before rel after narr scene2,
      processAction stackScene ⟨"STACK", [("target", "target_box")]⟩ =
        .ok ([before, rel, after], narr, scene2) ∧
      rel.gripper_open = true ∧
      rel.y = stackTarget.position.y + sizeY stackTarget / 2 + 1/20 ∧
      before.y = rel.y + 1/4 ∧
      after.y = rel.y + 1/4) :=
  ⟨rfl, rfl,
   by norm_num [stackTarget, sizeY],
   by norm_num [stackTarget, sizeY],
   stack_release_height stackScene "target_box" "held_cube" stackTarget
     rfl rfl⟩

-- ---------------------------------------------------------------------------
-- frontend/src/modes/commandMode.ts — the frontend pipeline state machine
-- ---------------------------------------------------------------------------

/-- The `PipelineState` union type of `commandMode.ts`, verbatim:
IDLE, LISTENING, THINKING, PLANNING, VALIDATING, EXECUTING, DONE, ERROR. -/
inductive PipelineState where
  | IDLE
  | LISTENING
  | THINKING
  | PLANNING
  | VALIDATING
  | EXECUTING
  | DONE
  | ERROR
  deriving DecidableEq, Repr

/-- The string value of each pipeline state, as written in the union type. -/
def PipelineState.name : PipelineState → String
  | .IDLE => "IDLE"
  | .LISTENING => "LISTENING"
  | .THINKING => "THINKING"
  | .PLANNING => "PLANNING"
  | .VALIDATING => "VALIDATING"
  | .EXECUTING => "EXECUTING"
  | .DONE => "DONE"
  | .ERROR => "ERROR"

/-- Every constructor of `PipelineState`, in declaration order. -/
def allPipelineStates : List PipelineState :=
  [.IDLE, .LISTENING, .THINKING, .PLANNING, .VALIDATING, .EXECUTING,
   .DONE, .ERROR]

/-- The nine states claim C3 (and spec §4.4) attributes to the state
machine. -/
def claimedPipelineStateNames : List String :=
  ["IDLE", "LISTENING", "DECOMPOSING", "SCENE_ANALYZING", "PLANNING",
   "VALIDATING", "EXECUTING", "CONFIRMING", "ERROR"]

/-- The observable state of the `CommandMode` controller: the pipeline
state, the `executing` flag, whether a `setTimeout`-scheduled return to
IDLE is pending, and the narration log emitted so far. -/
structure CommandModeState where
  state : PipelineState
  executing : Bool
  pendingIdleReset : Bool
  narrations : List String
  deriving DecidableEq, Repr

/-- Events the `CommandMode` controller reacts to: its public API calls
(`sendCommand`, `setListening`, `reset`), the WebSocket messages
(`plan_result` split into its valid/invalid payloads, `plan_error`,
`status_update`), completion of waypoint execution, and the firing of a
scheduled return-to-IDLE timeout. -/
inductive CommandEvent where
  | sendCommand (transcript : String)
  | setListening
  | reset
  | planResult (is_valid : Bool) (errorMsg : Option String)
      (narration : List String)
  | planFailure (msg : String)
  | executionDone (ok : Bool) (msg : String)
  | statusUpdate (s : PipelineState)
  | idleTimeout
  deriving DecidableEq, Repr

/-- One step of the `CommandMode` controller, following the handlers in
`commandMode.ts`: `sendCommand` moves to THINKING unless executing;
`setListening` moves to LISTENING unless executing; an invalid
`plan_result` or a `plan_error` enters ERROR, emits an error narration
and schedules a timed return to IDLE; a valid `plan_result` enters
EXECUTING; execution completion enters DONE (or ERROR on failure) and
schedules the timed return; a `status_update` message sets whatever state
the backend sent, recording nothing and scheduling nothing; a fired
timeout returns to IDLE when one was scheduled. -/
def handleEvent (st : CommandModeState) (e : CommandEvent) : CommandModeState :=
  match e with
  | .sendCommand t =>
    if st.executing then st
    else ⟨.THINKING, st.executing, st.pendingIdleReset,
      st.narrations ++ ["Processing: " ++ t]⟩
  | .setListening =>
    if st.executing then st
    else ⟨.LISTENING, st.executing, st.pendingIdleReset, st.narrations⟩
  | .reset => ⟨.IDLE, false, st.pendingIdleReset, st.narrations⟩
  | .planResult is_valid errorMsg narration =>
    if is_valid then
      ⟨.EXECUTING, true, st.pendingIdleReset, st.narrations ++ narration⟩
    else
      ⟨.ERROR, st.executing, true,
        st.narrations ++ ["Error: " ++ errorMsg.getD "Plan validation failed"]⟩
  | .planFailure msg =>
    ⟨.ERROR, st.executing, true, st.narrations ++ ["Error: " ++ msg]⟩
  | .executionDone ok msg =>
    if ok then
      ⟨.DONE, false, true, st.narrations ++ [msg]⟩
    else
      ⟨.ERROR, false, true, st.narrations ++ ["Execution error: " ++ msg]⟩
  | .statusUpdate s => ⟨s, st.executing, st.pendingIdleReset, st.narrations⟩
  | .idleTimeout =>
    if st.pendingIdleReset then
      ⟨.IDLE, st.executing, false, st.narrations⟩
    else st

/-- The controller's initial state (`IDLE`, not executing, nothing
scheduled, nothing narrated). -/
def initialCommandModeState : CommandModeState :=
  ⟨.IDLE, false, false, []⟩

/-- **C3 (counterexample)** — the pipeline state type of the code is not
the nine-state set the claim lists: THINKING is a state of the code but
not of the claim, and DECOMPOSING is claimed but does not exist in the
code. -/
theorem pipeline_states_differ_from_claim :
    PipelineState.THINKING ∈ allPipelineStates ∧
    allPipelineStates.map PipelineState.name ≠ claimedPipelineStateNames ∧
    "THINKING" ∉ claimedPipelineStateNames ∧
    "DECOMPOSING" ∉ allPipelineStates.map PipelineState.name ∧
    "CONFIRMING" ∉ allPipelineStates.map PipelineState.name := by
  refine ⟨by simp [allPipelineStates], ?_, ?_, ?_, ?_⟩ <;>
    simp [allPipelineStates, claimedPipelineStateNames, PipelineState.name]

/-- **C3 (amended)** — the frontend pipeline state machine has exactly the
eight states IDLE, LISTENING, THINKING, PLANNING, VALIDATING, EXECUTING,
DONE, ERROR (distinct, and exhaustive for the type), and no fixed edge
relation is enforced: a backend `status_update` event moves the pipeline
to the state the backend names, from any state. -/
theorem pipeline_states_amended :
    (∀ s : PipelineState, s ∈ allPipelineStates) ∧
    allPipelineStates.map PipelineState.name =
      ["IDLE", "LISTENING", "THINKING", "PLANNING", "VALIDATING",
       "EXECUTING", "DONE", "ERROR"] ∧
    (allPipelineStates.map PipelineState.name).Nodup ∧
    (∀ (st : CommandModeState) (s2 : PipelineState),
      (handleEvent st (CommandEvent.statusUpdate s2)).state = s2) := by
  refine ⟨fun s => by cases s <;> simp [allPipelineStates], ?_, ?_,
    fun st s2 => rfl⟩ <;>
    simp [allPipelineStates, PipelineState.name, claimedPipelineStateNames]

/-- **C5 (counterexample)** — a `status_update` message naming ERROR puts
the pipeline in the ERROR state with no recorded explanation and no
scheduled return to IDLE, and a later timeout leaves it in ERROR: such a
run stays in ERROR without external input, falsifying the claim for this
entry path. -/
theorem error_state_can_persist :
    (handleEvent initialCommandModeState
      (CommandEvent.statusUpdate PipelineState.ERROR)).state =
        PipelineState.ERROR ∧
    (handleEvent initialCommandModeState
      (CommandEvent.statusUpdate PipelineState.ERROR)).narrations = [] ∧
    (handleEvent initialCommandModeState
      (CommandEvent.statusUpdate PipelineState.ERROR)).pendingIdleReset =
        false ∧
    (handleEvent (handleEvent initialCommandModeState
      (CommandEvent.statusUpdate PipelineState.ERROR))
        CommandEvent.idleTimeout).state = PipelineState.ERROR :=
  ⟨rfl, rfl, rfl, rfl⟩

/-- **C5 (amended)** — every internally signalled failure (invalid plan
result, plan-error message, failed execution) enters ERROR, records
exactly one new human-readable explanation, and schedules the automatic
timed return to IDLE, whose firing indeed returns the pipeline to IDLE;
only ERROR entered through a raw backend `status_update` message carries
no such guarantee. -/
theorem error_recovery_amended (st : CommandModeState) (e : CommandEvent)
    (h : (∃ m n, e = CommandEvent.planResult false m n) ∨
      (∃ m, e = CommandEvent.planFailure m) ∨
      (∃ m, e = CommandEvent.executionDone false m)) :
    (handleEvent st e).state = PipelineState.ERROR ∧
    (handleEvent st e).narrations.length = st.narrations.length + 1 ∧
    (handleEvent st e).pendingIdleReset = true ∧
    (handleEvent (handleEvent st e) CommandEvent.idleTimeout).state =
      PipelineState.IDLE := by
  rcases h with ⟨m, n, rfl⟩ | ⟨m, rfl⟩ | ⟨m, rfl⟩ <;>
    simp [handleEvent]

theorem error_recovery_amended_witness :
    (handleEvent initialCommandModeState
      (CommandEvent.planFailure "backend unavailable")).state =
        PipelineState.ERROR ∧
    (handleEvent initialCommandModeState
      (CommandEvent.planFailure "backend unavailable")).narrations.length =
        initialCommandModeState.narrations.length + 1 ∧
    (handleEvent initialCommandModeState
      (CommandEvent.planFailure "backend unavailable")).pendingIdleReset =
        true ∧
    (handleEvent (handleEvent initialCommandModeState
      (CommandEvent.planFailure "backend unavailable"))
        CommandEvent.idleTimeout).state = PipelineState.IDLE :=
  error_recovery_amended initialCommandModeState
    (CommandEvent.planFailure "backend unavailable")
    (Or.inr (Or.inl ⟨"backend unavailable", rfl⟩))

-- ---------------------------------------------------------------------------
-- frontend/src/engine/ikSolver.ts — the CCD inverse-kinematics solver.
-- The transcendental primitives the code takes from `Math` (sin, cos,
-- sqrt, atan2, acos, and the constant PI) are kept abstract as a
-- parameter structure, so the embedding reproduces the solver's exact
-- control flow over ℚ for any interpretation of those primitives.
-- ---------------------------------------------------------------------------

/-- The numeric primitives of `Math` used by `ikSolver.ts`. -/
structure NumPrims where
  sin : ℚ → ℚ
  cos : ℚ → ℚ
  sqrt : ℚ → ℚ
  atan2 : ℚ → ℚ → ℚ
  acos : ℚ → ℚ
  pi : ℚ

/-- Joint angles `[baseYaw, shoulderPitch, elbowPitch]`. -/
def Angles : Type := ℚ × ℚ × ℚ

instance : DecidableEq Angles := by unfold Angles; infer_instance

/-- Joint-limit intervals (`jointLimits` of `ArmConfig`). -/
structure JointLimits where
  base : AxisRange
  shoulder : AxisRange
  elbow : AxisRange
  deriving DecidableEq, Repr

/-- `ArmConfig` from `ikSolver.ts`. -/
structure ArmConfig where
  segment1Length : ℚ
  segment2Length : ℚ
  baseHeight : ℚ
  jointLimits : JointLimits
  deriving DecidableEq, Repr

/-- `IKResult` from `ikSolver.ts`. -/
structure IKResult where
  success : Bool
  angles : Angles
  error : ℚ
  iterations : ℕ
  deriving DecidableEq

/-- `MAX_ITERATIONS` from `ikSolver.ts`. -/
def MAX_ITERATIONS : ℕ := 50

/-- `TOLERANCE` from `ikSolver.ts`: convergence tolerance 0.01. -/
def TOLERANCE : ℚ := 1/100

/-- `clampAngle` from `ikSolver.ts`:
`Math.max(limits[0], Math.min(limits[1], angle))`. -/
def clampAngle (angle : ℚ) (limits : AxisRange) : ℚ :=
  max limits.lo (min limits.hi angle)

/-- `forwardKinematics` from `ikSolver.ts`. -/
def forwardKinematics (P : NumPrims) (angles : Angles) (cfg : ArmConfig) :
    Vec3 :=
  let baseYaw := angles.1
  let shoulderPitch := angles.2.1
  let elbowPitch := angles.2.2
  let totalPitch1 := shoulderPitch
  let totalPitch2 := totalPitch1 + elbowPitch
  let r1 := cfg.segment1Length * P.sin totalPitch1
  let y1 := cfg.segment1Length * P.cos totalPitch1
  let r2 := r1 + cfg.segment2Length * P.sin totalPitch2
  let y2 := y1 + cfg.segment2Length * P.cos totalPitch2
  ⟨r2 * P.cos baseYaw, cfg.baseHeight + y2, r2 * P.sin baseYaw⟩

/-- `THREE.Vector3.distanceTo`: the square root (as interpreted by the
abstract primitives) of the squared distance. -/
def distanceTo (P : NumPrims) (p q : Vec3) : ℚ := P.sqrt (distSq p q)

/-- Joint angle by index: 0 = base yaw, 1 = shoulder, 2 = elbow. -/
def getJ (a : Angles) : ℕ → ℚ
  | 0 => a.1
  | 1 => a.2.1
  | _ => a.2.2

/-- Replace the joint angle at an index. -/
def setJ (a : Angles) : ℕ → ℚ → Angles
  | 0, v => (v, a.2.1, a.2.2)
  | 1, v => (a.1, v, a.2.2)
  | _, v => (a.1, a.2.1, v)

/-- The per-joint limit array `[base, shoulder, elbow]` of `solveCCD`. -/
def limitsFor (cfg : ArmConfig) : ℕ → AxisRange
  | 0 => cfg.jointLimits.base
  | 1 => cfg.jointLimits.shoulder
  | _ => cfg.jointLimits.elbow

/-- The running state of the CCD loop: current angles, best error seen so
far (`none` plays the role of the initial `Infinity`), and the angles at
which it was seen. -/
structure CCDState where
  angles : Angles
  bestError : Option ℚ
  bestAngles : Angles
  deriving DecidableEq

/-- `currentError < bestError` with `bestError` possibly `Infinity`. -/
def ltInfB (c : ℚ) : Option ℚ → Bool
  | none => true
  | some b => decide (c < b)

/-- One joint update of the CCD inner loop (`ikSolver.ts`, body of the
`for (joint = 2; joint >= 0; joint--)` loop): early-return with success
when the current error is within tolerance, otherwise update the best
error and nudge the joint by ±0.02 in whichever direction reduces the
error, clamped to the joint limits. -/
def ccdJoint (P : NumPrims) (cfg : ArmConfig) (target : Vec3)
    (iter joint : ℕ) (s : CCDState) : Except IKResult CCDState :=
  let currentError := distanceTo P (forwardKinematics P s.angles cfg) target
  if currentError < TOLERANCE then
    .error ⟨true, s.angles, currentError, iter⟩
  else
    let s1 : CCDState :=
      if ltInfB currentError s.bestError then
        ⟨s.angles, some currentError, s.angles⟩
      else s
    let saved := getJ s1.angles joint
    let step : ℚ := 1/50
    let errorPlus := distanceTo P
      (forwardKinematics P (setJ s1.angles joint (saved + step)) cfg) target
    let errorMinus := distanceTo P
      (forwardKinematics P (setJ s1.angles joint (saved - step)) cfg) target
    let newAngle :=
      if errorPlus < errorMinus ∧ errorPlus < currentError then
        clampAngle (saved + step) (limitsFor cfg joint)
      else if errorMinus < currentError then
        clampAngle (saved - step) (limitsFor cfg joint)
      else saved
    .ok ⟨setJ s1.angles joint newAngle, s1.bestError, s1.bestAngles⟩

/-- One outer iteration of `solveCCD`: the three joint updates from the
end effector back to the base, then the end-of-iteration convergence
check. -/
def ccdIteration (P : NumPrims) (cfg : ArmConfig) (target : Vec3)
    (iter : ℕ) (s0 : CCDState) : Except IKResult CCDState :=
  match ccdJoint P cfg target iter 2 s0 with
  | .error r => .error r
  | .ok s1 =>
    match ccdJoint P cfg target iter 1 s1 with
    | .error r => .error r
    | .ok s2 =>
      match ccdJoint P cfg target iter 0 s2 with
      | .error r => .error r
      | .ok s3 =>
        let finalError := distanceTo P (forwardKinematics P s3.angles cfg)
          target
        if finalError < TOLERANCE then
          .error ⟨true, s3.angles, finalError, iter + 1⟩
        else .ok s3

/-- The outer `for (iter = 0; iter < MAX_ITERATIONS; iter++)` loop,
with the remaining iteration budget as structural fuel. -/
def ccdLoop (P : NumPrims) (cfg : ArmConfig) (target : Vec3) :
    ℕ → ℕ → CCDState → Except IKResult CCDState
  | 0, _, s => .ok s
  | fuel + 1, iter, s =>
    match ccdIteration P cfg target iter s with
    | .error r => .error r
    | .ok s2 => ccdLoop P cfg target fuel (iter + 1) s2

/-- `solveCCD` from `ikSolver.ts`: run the iteration loop; an early
return surfaces directly, otherwise report the best angles seen, with
success exactly when the best error is below `TOLERANCE * 5`.  (The
`Infinity` best error — unreachable with a positive iteration budget —
maps to a failed result.) -/
def solveCCD (P : NumPrims) (target : Vec3) (initialAngles : Angles)
    (cfg : ArmConfig) : IKResult :=
  match ccdLoop P cfg target MAX_ITERATIONS 0
      ⟨initialAngles, none, initialAngles⟩ with
  | .error r => r
  | .ok s =>
    match s.bestError with
    | none => ⟨false, s.bestAngles, 0, MAX_ITERATIONS⟩
    | some be => ⟨decide (be < TOLERANCE * 5), s.bestAngles, be,
        MAX_ITERATIONS⟩

/-- `solveIK` from `ikSolver.ts`: base yaw from atan2, reachability
checks (beyond 99.9 % of max reach → straight arm, failure; inside
100.1 % of min reach → CCD), then the analytical two-link solution with
elbow-down preferred, elbow-up as fallback, and CCD refinement when
neither is within tolerance. -/
def solveIK (P : NumPrims) (target : Vec3) (currentAngles : Angles)
    (cfg : ArmConfig) : IKResult :=
  let baseYaw := clampAngle (P.atan2 target.z target.x) cfg.jointLimits.base
  let radialDist := P.sqrt (target.x * target.x + target.z * target.z)
  let verticalDist := target.y - cfg.baseHeight
  let dSq := radialDist * radialDist + verticalDist * verticalDist
  let dist := P.sqrt dSq
  let L1 := cfg.segment1Length
  let L2 := cfg.segment2Length
  let maxReach := L1 + L2
  let minReach := |L1 - L2|
  if dist > maxReach * (999/1000) then
    let shoulderPitch := P.atan2 radialDist verticalDist
    let angles : Angles := (baseYaw,
      clampAngle shoulderPitch cfg.jointLimits.shoulder,
      clampAngle 0 cfg.jointLimits.elbow)
    let endPos := forwardKinematics P angles cfg
    ⟨false, angles, distanceTo P endPos target, 0⟩
  else if dist < minReach * (1001/1000) then
    solveCCD P target currentAngles cfg
  else
    let cosElbow := (L1 * L1 + L2 * L2 - dSq) / (2 * L1 * L2)
    let clampedCosElbow := max (-1) (min 1 cosElbow)
    let elbowAngle := P.pi - P.acos clampedCosElbow
    let cosAlpha := (L1 * L1 + dSq - L2 * L2) / (2 * L1 * dist)
    let clampedCosAlpha := max (-1) (min 1 cosAlpha)
    let alpha := P.acos clampedCosAlpha
    let phi := P.atan2 radialDist verticalDist
    let angles1 : Angles := (baseYaw,
      clampAngle (phi - alpha) cfg.jointLimits.shoulder,
      clampAngle (-elbowAngle) cfg.jointLimits.elbow)
    let error1 := distanceTo P (forwardKinematics P angles1 cfg) target
    if error1 < TOLERANCE then ⟨true, angles1, error1, 0⟩
    else
      let angles2 : Angles := (baseYaw,
        clampAngle (phi + alpha) cfg.jointLimits.shoulder,
        clampAngle elbowAngle cfg.jointLimits.elbow)
      let error2 := distanceTo P (forwardKinematics P angles2 cfg) target
      if error2 < error1 then
        if error2 < TOLERANCE then ⟨true, angles2, error2, 0⟩
        else solveCCD P target angles2 cfg
      else solveCCD P target angles1 cfg

theorem ccdJoint_error_bound (P : NumPrims) (cfg : ArmConfig)
    (target : Vec3) (iter joint : ℕ) (s : CCDState) (r : IKResult)
    (h : ccdJoint P cfg target iter joint s = .error r) :
    r.success = true ∧ r.error < TOLERANCE := by
  simp only [ccdJoint] at h
  split_ifs at h with h1
  cases h
  exact ⟨rfl, h1⟩

theorem ccdIteration_error_bound (P : NumPrims) (cfg : ArmConfig)
    (target : Vec3) (iter : ℕ) (s0 : CCDState) (r : IKResult)
    (h : ccdIteration P cfg target iter s0 = .error r) :
    r.success = true ∧ r.error < TOLERANCE := by
  unfold ccdIteration at h
  cases h2 : ccdJoint P cfg target iter 2 s0 with
  | error r2 =>
    rw [h2] at h
    simp only at h
    cases h
    exact ccdJoint_error_bound P cfg target iter 2 s0 r h2
  | ok s1 =>
    rw [h2] at h
    simp only at h
    cases h3 : ccdJoint P cfg target iter 1 s1 with
    | error r3 =>
      rw [h3] at h
      simp only at h
      cases h
      exact ccdJoint_error_bound P cfg target iter 1 s1 r h3
    | ok s2 =>
      rw [h3] at h
      simp only at h
      cases h4 : ccdJoint P cfg target iter 0 s2 with
      | error r4 =>
        rw [h4] at h
        simp only at h
        cases h
        exact ccdJoint_error_bound P cfg target iter 0 s2 r h4
      | ok s3 =>
        rw [h4] at h
        simp only at h
        split_ifs at h with h5
        cases h
        exact ⟨rfl, h5⟩

theorem ccdLoop_error_bound (P : NumPrims) (cfg : ArmConfig)
    (target : Vec3) (fuel : ℕ) :
    ∀ (iter : ℕ) (s : CCDState) (r : IKResult),
      ccdLoop P cfg target fuel iter s = .error r →
      r.success = true ∧ r.error < TOLERANCE := by
  induction fuel with
  | zero => intro iter s r h; simp [ccdLoop] at h
  | succ fuel ih =>
    intro iter s r h
    unfold ccdLoop at h
    cases h2 : ccdIteration P cfg target iter s with
    | error r2 =>
      rw [h2] at h
      cases h
      exact ccdIteration_error_bound P cfg target iter s r h2
    | ok s2 =>
      rw [h2] at h
      exact ih (iter + 1) s2 r h

theorem solveCCD_success_error_bound (P : NumPrims) (target : Vec3)
    (init : Angles) (cfg : ArmConfig)
    (h : (solveCCD P target init cfg).success = true) :
    (solveCCD P target init cfg).error < TOLERANCE * 5 := by
  unfold solveCCD at h ⊢
  generalize hl : ccdLoop P cfg target MAX_ITERATIONS 0
    ⟨init, none, init⟩ = res at h ⊢
  cases res with
  | error r =>
    simp only at h ⊢
    have hr := ccdLoop_error_bound P cfg target MAX_ITERATIONS 0
      ⟨init, none, init⟩ r hl
    have h5 : TOLERANCE < TOLERANCE * 5 := by norm_num [TOLERANCE]
    exact lt_trans hr.2 h5
  | ok s =>
    simp only at h ⊢
    generalize s.bestError = ob at h ⊢
    cases ob with
    | none => simp at h
    | some be =>
      simp only [decide_eq_true_eq] at h
      exact h

set_option maxHeartbeats 1000000 in
/-- **C10** — every `IKResult` that `solveIK` returns with
`success = true` has `error < TOLERANCE * 5` (i.e. strictly below 0.05,
five times the nominal 0.01 convergence tolerance), for every
interpretation of the numeric primitives, every target, every starting
pose and every arm configuration: the analytic returns are guarded by
`error < TOLERANCE` and the CCD fallback's final return grants success
exactly below `TOLERANCE * 5`. -/
theorem solveIK_success_error_bound (P : NumPrims) (target : Vec3)
    (cur : Angles) (cfg : ArmConfig)
    (h : (solveIK P target cur cfg).success = true) :
    (solveIK P target cur cfg).error < TOLERANCE * 5 := by
  have h6 : TOLERANCE < TOLERANCE * 5 := by norm_num [TOLERANCE]
  simp only [solveIK] at h ⊢
  split_ifs at h ⊢ <;>
    first
      | exact lt_trans (by assumption) h6
      | exact solveCCD_success_error_bound P target _ cfg h

/-- The all-zero interpretation of the numeric primitives, used by the
concrete examples. -/
def zeroPrims : NumPrims := ⟨fun _ => 0, fun _ => 0, fun _ => 0,
  fun _ _ => 0, fun _ => 0, 0⟩

/-- A concrete arm configuration with two unit segments. -/
def unitArmCfg : ArmConfig :=
  ⟨1, 1, 1/2, ⟨⟨-4, 4⟩, ⟨-1, 3⟩, ⟨-3, 1⟩⟩⟩

theorem solveIK_success_error_bound_witness :
    (solveIK zeroPrims ⟨1, 1, 1⟩ (0, 0, 0) unitArmCfg).success = true ∧
    (solveIK zeroPrims ⟨1, 1, 1⟩ (0, 0, 0) unitArmCfg).error <
      TOLERANCE * 5 := by
  have h : solveIK zeroPrims ⟨1, 1, 1⟩ (0, 0, 0) unitArmCfg =
      ⟨true, (0, 0, 0), 0, 0⟩ := by
    norm_num [solveIK, zeroPrims, unitArmCfg, clampAngle, distanceTo,
      forwardKinematics, distSq, TOLERANCE]
  exact ⟨by rw [h], solveIK_success_error_bound zeroPrims ⟨1, 1, 1⟩
    (0, 0, 0) unitArmCfg (by rw [h])⟩

-- ---------------------------------------------------------------------------
-- frontend/src/engine/armController.ts — the movement-command path
-- ---------------------------------------------------------------------------

/-- A queued movement command (`MovementCommand` in `armController.ts`,
without the promise-resolution callback). -/
structure MovementCommand where
  targetAngles : Angles
  speed : ℚ
  deriving DecidableEq

/-- The part of the arm controller's state that `moveToPosition` reads or
writes: the current joint angles (fed to the IK solver), the target
angles being interpolated toward (changed only by the update loop), and
the command queue. -/
structure ArmControllerState where
  jointAngles : Angles
  targetAngles : Angles
  commandQueue : List MovementCommand
  deriving DecidableEq

/-- `ArmController.moveToPosition` from `armController.ts`: reject when
the target is outside `WORKSPACE_BOUNDS`; reject when the IK result has
`success = false` and `error > 0.1`; otherwise push a movement command
with the IK solution's angles onto the queue.  A rejected promise is
modelled as `Except.error` with the message the code throws, paired with
the (unchanged) controller state. -/
def moveToPosition (P : NumPrims) (cfg : ArmConfig)
    (st : ArmControllerState) (x y z speed : ℚ) :
    ArmControllerState × Except String Unit :=
  let target : Vec3 := ⟨x, y, z⟩
  if !(isWithinWorkspace target) then
    (st, .error "Target outside workspace bounds")
  else
    let result := solveIK P target st.jointAngles cfg
    if !result.success && decide (result.error > 1/10) then
      (st, .error "IK solver failed")
    else
      ({ st with commandQueue :=
          st.commandQueue ++ [⟨result.angles, speed⟩] }, .ok ())

/-- **C9** — `moveToPosition` rejects every out-of-bounds target without
touching the controller state (in particular the target joint angles are
unchanged); any rejection leaves the state unchanged; and a command is
enqueued exactly on the accepting runs, which require the target inside
the workspace and the IK solution either successful or with error at
most 0.1. -/
theorem moveToPosition_workspace_guard (P : NumPrims) (cfg : ArmConfig)
    (st : ArmControllerState) (x y z speed : ℚ) :
    (isWithinWorkspace ⟨x, y, z⟩ = false →
      moveToPosition P cfg st x y z speed =
        (st, Except.error "Target outside workspace bounds")) ∧
    (∀ st2 e, moveToPosition P cfg st x y z speed = (st2, Except.error e) →
      st2 = st) ∧
    (∀ st2, moveToPosition P cfg st x y z speed = (st2, Except.ok ()) →
      isWithinWorkspace ⟨x, y, z⟩ = true ∧
      ((solveIK P ⟨x, y, z⟩ st.jointAngles cfg).success = true ∨
        (solveIK P ⟨x, y, z⟩ st.jointAngles cfg).error ≤ 1/10) ∧
      st2.targetAngles = st.targetAngles ∧
      st2.jointAngles = st.jointAngles ∧
      st2.commandQueue = st.commandQueue ++
        [⟨(solveIK P ⟨x, y, z⟩ st.jointAngles cfg).angles, speed⟩]) := by
  refine ⟨?_, ?_, ?_⟩
  · intro hout
    simp [moveToPosition, hout]
  · intro st2 e hrun
    simp only [moveToPosition] at hrun
    split_ifs at hrun with h1 h2
    · cases hrun; rfl
    · cases hrun; rfl
    · simp at hrun
  · intro st2 hrun
    simp only [moveToPosition] at hrun
    split_ifs at hrun with h1 h2
    · simp at hrun
    · simp at hrun
    · simp only [Bool.not_eq_true] at h1
      refine ⟨by simpa using h1, ?_, ?_, ?_, ?_⟩
      · rcases Bool.eq_false_or_eq_true
          (solveIK P ⟨x, y, z⟩ st.jointAngles cfg).success with hs | hs
        · left; exact hs
        · right
          by_contra hgt
          exact h2 (by simp [hs]; linarith [lt_of_not_le hgt])
      · cases hrun; rfl
      · cases hrun; rfl
      · cases hrun; rfl

theorem moveToPosition_workspace_guard_witness :
    isWithinWorkspace ⟨2, 1, 0⟩ = false ∧
    moveToPosition zeroPrims unitArmCfg ⟨(0, 0, 0), (0, 0, 0), []⟩ 2 1 0 1 =
      (⟨(0, 0, 0), (0, 0, 0), []⟩,
        Except.error "Target outside workspace bounds") := by
  have hb : isWithinWorkspace ⟨2, 1, 0⟩ = false := by
    norm_num [isWithinWorkspace, WORKSPACE_BOUNDS]
  exact ⟨hb, (moveToPosition_workspace_guard zeroPrims unitArmCfg
    ⟨(0, 0, 0), (0, 0, 0), []⟩ 2 1 0 1).1 hb⟩

-- ---------------------------------------------------------------------------
-- The CCD fallback can report success with an error at or above the
-- nominal tolerance: an interpretation of the primitives whose square
-- root is the constant 0.02 makes every measured distance 0.02, so the
-- loop never converges below TOLERANCE yet the final return still grants
-- success (0.02 < TOLERANCE * 5).
-- ---------------------------------------------------------------------------

/-- Primitives whose square root is constantly 0.02 and whose other
functions are constantly 0. -/
def flatPrims : NumPrims := ⟨fun _ => 0, fun _ => 0, fun _ => 1/50,
  fun _ _ => 0, fun _ => 0, 0⟩

theorem setJ_getJ (a : Angles) (j : ℕ) : setJ a j (getJ a j) = a := by
  rcases j with _ | _ | n <;> rfl

theorem ccdJoint_flat_fixed (target : Vec3) (iter joint : ℕ) (s : CCDState)
    (hbest : s.bestError = some (1/50)) :
    ccdJoint flatPrims unitArmCfg target iter joint s = .ok s := by
  simp only [ccdJoint, distanceTo, flatPrims, hbest]
  rw [if_neg (by norm_num [TOLERANCE])]
  rw [if_neg (by norm_num [ltInfB])]
  rw [if_neg (by norm_num), if_neg (by norm_num)]
  rw [setJ_getJ]

theorem ccdJoint_flat_init (target : Vec3) (iter joint : ℕ) (a : Angles) :
    ccdJoint flatPrims unitArmCfg target iter joint ⟨a, none, a⟩ =
      .ok ⟨a, some (1/50), a⟩ := by
  simp only [ccdJoint, distanceTo, flatPrims]
  rw [if_neg (by norm_num [TOLERANCE])]
  rw [if_pos (by norm_num [ltInfB])]
  rw [if_neg (by norm_num), if_neg (by norm_num)]
  rw [setJ_getJ]

theorem ccdIteration_flat_fixed (target : Vec3) (iter : ℕ) (s : CCDState)
    (hbest : s.bestError = some (1/50)) :
    ccdIteration flatPrims unitArmCfg target iter s = .ok s := by
  unfold ccdIteration
  rw [ccdJoint_flat_fixed target iter 2 s hbest]
  simp only
  rw [ccdJoint_flat_fixed target iter 1 s hbest]
  simp only
  rw [ccdJoint_flat_fixed target iter 0 s hbest]
  simp only
  rw [if_neg (by norm_num [distanceTo, flatPrims, TOLERANCE])]

theorem ccdLoop_flat_fixed (target : Vec3) (fuel : ℕ) :
    ∀ (iter : ℕ) (s : CCDState), s.bestError = some (1/50) →
      ccdLoop flatPrims unitArmCfg target fuel iter s = .ok s := by
  induction fuel with
  | zero => intro iter s _; rfl
  | succ fuel ih =>
    intro iter s hbest
    unfold ccdLoop
    rw [ccdIteration_flat_fixed target iter s hbest]
    exact ih (iter + 1) s hbest

theorem solveCCD_flat (target : Vec3) (a : Angles) :
    solveCCD flatPrims target a unitArmCfg =
      ⟨true, a, 1/50, MAX_ITERATIONS⟩ := by
  unfold solveCCD
  have h1 : ccdLoop flatPrims unitArmCfg target MAX_ITERATIONS 0
      ⟨a, none, a⟩ = .ok ⟨a, some (1/50), a⟩ := by
    show ccdLoop flatPrims unitArmCfg target (49 + 1) 0 ⟨a, none, a⟩ = _
    unfold ccdLoop
    have h2 : ccdIteration flatPrims unitArmCfg target 0 ⟨a, none, a⟩ =
        .ok ⟨a, some (1/50), a⟩ := by
      unfold ccdIteration
      rw [ccdJoint_flat_init target 0 2 a]
      simp only
      rw [ccdJoint_flat_fixed target 0 1 ⟨a, some (1/50), a⟩ rfl]
      simp only
      rw [ccdJoint_flat_fixed target 0 0 ⟨a, some (1/50), a⟩ rfl]
      simp only
      rw [if_neg (by norm_num [distanceTo, flatPrims, TOLERANCE])]
    rw [h2]
    exact ccdLoop_flat_fixed target 49 1 ⟨a, some (1/50), a⟩ rfl
  rw [h1]
  simp only
  rw [decide_eq_true (by norm_num [TOLERANCE] : (1/50 : ℚ) < TOLERANCE * 5)]

/-- The `success = true` results of `solveIK` are not always within the
nominal convergence tolerance: under `flatPrims` every measured distance
is 0.02, the analytic branches miss, and the CCD fallback's final return
still reports success with error 0.02 ≥ TOLERANCE (0.01). -/
theorem solveIK_success_not_always_within_tolerance :
    ∃ (P : NumPrims) (target : Vec3) (cur : Angles) (cfg : ArmConfig),
      (solveIK P target cur cfg).success = true ∧
      TOLERANCE ≤ (solveIK P target cur cfg).error := by
  refine ⟨flatPrims, ⟨1, 1, 1⟩, (0, 0, 0), unitArmCfg, ?_⟩
  have hsin : ∀ x : ℚ, flatPrims.sin x = 0 := fun _ => rfl
  have hcos : ∀ x : ℚ, flatPrims.cos x = 0 := fun _ => rfl
  have hsqrt : ∀ x : ℚ, flatPrims.sqrt x = 1/50 := fun _ => rfl
  have hatan : ∀ x y : ℚ, flatPrims.atan2 x y = 0 := fun _ _ => rfl
  have hacos : ∀ x : ℚ, flatPrims.acos x = 0 := fun _ => rfl
  have hpi : flatPrims.pi = 0 := rfl
  have hL1 : unitArmCfg.segment1Length = 1 := rfl
  have hL2 : unitArmCfg.segment2Length = 1 := rfl
  have hbh : unitArmCfg.baseHeight = 1/2 := rfl
  have hjb : unitArmCfg.jointLimits.base = ⟨-4, 4⟩ := rfl
  have hjs : unitArmCfg.jointLimits.shoulder = ⟨-1, 3⟩ := rfl
  have hje : unitArmCfg.jointLimits.elbow = ⟨-3, 1⟩ := rfl
  have h : solveIK flatPrims ⟨1, 1, 1⟩ (0, 0, 0) unitArmCfg =
      ⟨true, (0, 0, 0), 1/50, MAX_ITERATIONS⟩ := by
    simp only [solveIK, distanceTo, hsin, hcos, hsqrt, hatan, hacos, hpi,
      hL1, hL2, hbh, hjb, hjs, hje]
    norm_num [clampAngle, TOLERANCE]
    rw [solveCCD_flat]
  rw [h]
  norm_num [TOLERANCE]

end Kinesys
